import Mathlib

/-!
Verification of the now-playing ambient display core.

This file gives a shallow embedding, in Lean 4, of the presentation state
machine and its supporting caches from the repository sources
(`now_playing.py`, `service/now_playing_orchestrator.py`,
`service/weather_service.py`, `service/ai_background_service.py`), and proves
or refutes the spec claims about them.

Modelling conventions:
- Python `time.time()` / `datetime.datetime.now()` timestamps are embedded as
  integers (`Int`); subtraction and comparisons carry over directly.
- Python `Optional[T]` becomes `Option T`; Python truthiness of an optional
  string (`x or y`) is embedded explicitly (`none` and the empty string are
  falsy).
- `collections.OrderedDict` is embedded as an association list kept in
  insertion/recency order: head = oldest (popped by `popitem(last=False)`),
  last element = most recently inserted or accessed (`move_to_end`).
- External collaborators (Shazam identification, Spotify enrichment,
  OpenWeather fetch, OpenAI image generation, display rendering, the file
  system) are parameters of the embedded functions: each call site receives
  the collaborator outcome as an explicit argument, and the embedded function
  returns the calls it made as explicit data.
- Numeric weather payload fields are taken as integers, standing for the
  already-rounded values fed to string formatting.
-/

/-! ## Common helpers (Python semantics) -/

/-- Python `a or b` on optional strings: `None` and `""` are falsy. -/
def pyOr (a b : Option String) : Option String :=
  match a with
  | some s => if s = "" then b else some s
  | none => b

/-- Python `s or None` on a string: the empty string collapses to `None`. -/
def orNone (s : String) : Option String :=
  if s = "" then none else some s

/-- Python `str.lower()` (ASCII semantics), written on the underlying
character list so that concrete instances evaluate inside the kernel. -/
def pyLower (s : String) : String :=
  ⟨s.data.map Char.toLower⟩

/-- Python `str.strip()`: remove whitespace from both ends. -/
def pyStrip (s : String) : String :=
  ⟨((s.data.dropWhile Char.isWhitespace).reverse.dropWhile Char.isWhitespace).reverse⟩

/-! ## Weather service (`service/weather_service.py`) -/

/-- `WeatherInfo` dataclass from `weather_service.py`. -/
structure WeatherInfo where
  temperature : Option String
  sub_description : Option String
  fetched_at : Option Int
deriving Repr, DecidableEq

/-- Raw OpenWeather payload fields consumed by `_extract_weather_info`:
`main.temp`, `main.feels_like` (already rounded, as integers) and
`weather[0].description`. A missing field models the `KeyError` path. -/
structure RawWeather where
  temp : Option Int
  feels_like : Option Int
  description : Option String
deriving Repr, DecidableEq

/-- Python `str.title()` restricted to the character classes that occur here:
an alphabetic character is uppercased after a non-alphabetic character (or at
the start) and lowercased otherwise. -/
def pyTitle (s : String) : String :=
  let step : List Char × Bool → Char → List Char × Bool := fun acc c =>
    let c' := if c.isAlpha then (if acc.2 then c.toLower else c.toUpper) else c
    (acc.1 ++ [c'], c.isAlpha)
  ⟨(s.toList.foldl step ([], false)).1⟩

/-- `WeatherService._default_weather_info`. -/
def default_weather_info (now : Int) : WeatherInfo :=
  { temperature := some "inf"
    sub_description := some "No weather info"
    fetched_at := some now }

/-- `WeatherService._extract_weather_info`: formats the payload, or returns
the default snapshot when a key is missing (`KeyError` branch). -/
def extract_weather_info (raw : RawWeather) (now : Int) : WeatherInfo :=
  match raw.temp, raw.feels_like, raw.description with
  | some t, some fl, some d =>
      { temperature := some (toString t ++ "°C")
        sub_description :=
          some ("Feels like " ++ toString fl ++ "°C. " ++ pyTitle d ++ ".")
        fetched_at := some now }
  | _, _, _ => default_weather_info now

/-- `WeatherService.get_weather_info`, as a function of the refresh TTL, the
current time, the outcome the upstream fetch would produce (`none` models
`_fetch_weather_data` returning `None` on failure) and the cache slot.
Returns the snapshot handed to the caller, the new cache slot, and whether
the upstream fetch was actually issued. -/
def get_weather_info (refresh_seconds now : Int) (fetchResult : Option RawWeather)
    (cached : Option WeatherInfo) : WeatherInfo × Option WeatherInfo × Bool :=
  let fetchPath : WeatherInfo × Option WeatherInfo × Bool :=
    match fetchResult with
    | none => (cached.getD (default_weather_info now), cached, true)
    | some raw =>
        let wi := extract_weather_info raw now
        (wi, some wi, true)
  match cached with
  | some ci =>
      match ci.fetched_at with
      | some fa => if now - fa < refresh_seconds then (ci, some ci, false) else fetchPath
      | none => fetchPath
  | none => fetchPath

/-! ## Enrichment cache and orchestrator (`service/now_playing_orchestrator.py`) -/

/-- One enrichment cache value: the tuple `(album, year, ts)` stored in
`self._enrichment_cache`. -/
structure CacheEntry where
  album : String
  year : String
  ts : Int
deriving Repr, DecidableEq

/-- The `OrderedDict` embedded as an association list: head = oldest
(`popitem(last=False)` side), last = most recently inserted or accessed. -/
abbrev EnrichCache := List (String × CacheEntry)

/-- Dictionary lookup `key in self._enrichment_cache` / subscript access. -/
def cacheFind (c : EnrichCache) (k : String) : Option CacheEntry :=
  (c.find? (fun p => p.1 = k)).map Prod.snd

/-- `OrderedDict.move_to_end(key)`: remove the binding and reinsert it at the
most-recent end, keeping its value. No-op when the key is absent (the source
only calls it after a membership check). -/
def moveToEnd (c : EnrichCache) (k : String) : EnrichCache :=
  match cacheFind c k with
  | none => c
  | some e => (c.filter (fun p => p.1 ≠ k)) ++ [(k, e)]

/-- The `while len(...) > self._cache_size: popitem(last=False)` loop of
`_put_cache`: pop the oldest entry until the size bound holds. -/
def evictOverCapacity (cap : Nat) : EnrichCache → EnrichCache
  | [] => []
  | e :: rest =>
      if (e :: rest).length > cap then evictOverCapacity cap rest else e :: rest

/-- `NowPlayingOrchestrator._put_cache`: assign the key (dict assignment keeps
an existing position, but the immediate `move_to_end` sends it to the
most-recent end either way), then evict oldest entries over capacity. -/
def put_cache (cap : Nat) (c : EnrichCache) (key album year : String) (now : Int) :
    EnrichCache :=
  evictOverCapacity cap ((c.filter (fun p => p.1 ≠ key)) ++ [(key, ⟨album, year, now⟩)])

/-- `NowPlayingOrchestrator._make_key` on the two strings it receives
(`title or ""`, `artist or ""`): strip, lowercase, join with a bar. -/
def make_key (title artist : String) : String :=
  pyLower (pyStrip title) ++ "|" ++ pyLower (pyStrip artist)

/-- `NowPlayingOrchestrator._make_key` on optional inputs, as called from
`process`: `None` collapses to the empty string first. -/
def make_key_opt (title artist : Option String) : String :=
  make_key (title.getD "") (artist.getD "")

/-- `NowPlayingOrchestrator._persist_cache_to_disk`: serializes the whole
cache (key to album/year/ts record, here kept as the entry itself) when a
cache file path is configured; writes nothing otherwise. Returns the durable
content written, `none` when no write happens. -/
def persist_cache_to_disk (cache_file_path : String) (c : EnrichCache) :
    Option EnrichCache :=
  if cache_file_path = "" then none else some c

/-- `NowPlayingOrchestrator._load_cache_from_disk`: replays the `for k, v in
data.items()` loop, a plain dict assignment per file entry, onto the empty
startup cache. JSON object keys are distinct, so each assignment appends. -/
def load_cache_from_disk (cache_file_path : String) (data : List (String × CacheEntry)) :
    EnrichCache :=
  if cache_file_path = "" then []
  else data.foldl (fun c kv =>
    if (cacheFind c kv.1).isSome
    then c.map (fun p => if p.1 = kv.1 then (p.1, kv.2) else p)
    else c ++ [kv]) []

/-- Result of one `_get_cached_or_fetch_album_year` call: the returned pair,
the cache after the call, the number of upstream Spotify fetches issued
(0 or 1), and what was persisted to disk (`none` when nothing was written). -/
structure FetchStep where
  result : Option String × Option String
  cache : EnrichCache
  fetches : Nat
  persisted : Option EnrichCache
deriving Repr, DecidableEq

/-- `NowPlayingOrchestrator._get_cached_or_fetch_album_year`. `fetch` is the
Spotify collaborator `get_album_title_and_year`. -/
def get_cached_or_fetch_album_year (cap : Nat) (ttl : Int) (cache_file_path : String)
    (fetch : String → String → Option String × Option String)
    (now : Int) (c : EnrichCache) (title artist : String) : FetchStep :=
  let key := make_key title artist
  let fetchPath : EnrichCache → FetchStep := fun c0 =>
    let (a, y) := fetch title artist
    let c1 := put_cache cap c0 key (a.getD "") (y.getD "") now
    { result := (a, y), cache := c1, fetches := 1
      persisted := persist_cache_to_disk cache_file_path c1 }
  match cacheFind c key with
  | some e =>
      if now - e.ts < ttl then
        { result := (orNone e.album, orNone e.year)
          cache := moveToEnd c key, fetches := 0, persisted := none }
      else
        fetchPath (c.filter (fun p => p.1 ≠ key))
  | none => fetchPath c

/-- `SongInfo` dataclass from `service/song_identify_service.py`. -/
structure SongInfo where
  title : Option String
  artist : Option String
  album : Option String
  album_art : Option String
  release_year : Option String
deriving Repr, DecidableEq

/-- Mutable orchestrator fields touched by `process`:
`_enrichment_cache`, `_last_track_key`, `_last_update_ts`. -/
structure OrchState where
  cache : EnrichCache
  last_track_key : Option String
  last_update_ts : Int
deriving Repr, DecidableEq

/-- `NowPlayingOrchestrator._is_debounced`. -/
def is_debounced (debounce_seconds now : Int) (st : OrchState) (key : String) : Bool :=
  if st.last_track_key ≠ some key then false
  else decide (now - st.last_update_ts < debounce_seconds)

/-- Result of one `NowPlayingOrchestrator.process` call: the returned
`Option SongInfo`, the orchestrator state after the call, and whether
`update_display_to_playing` was invoked. -/
structure ProcessStep where
  result : Option SongInfo
  state : OrchState
  rendered : Bool
deriving Repr, DecidableEq

/-- `NowPlayingOrchestrator.process`. `identified` is the outcome of the
identification collaborator (`identify_sync`), `fetch` the Spotify
enrichment collaborator. -/
def process (cap : Nat) (ttl debounce_seconds : Int) (cache_file_path : String)
    (fetch : String → String → Option String × Option String)
    (identified : Option SongInfo) (force_update : Bool) (now : Int)
    (st : OrchState) : ProcessStep :=
  match identified with
  | none => { result := none, state := st, rendered := false }
  | some si =>
      let key := make_key_opt si.title si.artist
      let step := get_cached_or_fetch_album_year cap ttl cache_file_path fetch now
        st.cache (si.title.getD "") (si.artist.getD "")
      let si' := { si with
        album := pyOr si.album step.result.1
        release_year := pyOr si.release_year step.result.2 }
      let st1 := { st with cache := step.cache }
      if ¬ force_update ∧ is_debounced debounce_seconds now st1 key then
        { result := some si', state := st1, rendered := false }
      else
        { result := some si'
          state := { st1 with last_track_key := some key, last_update_ts := now }
          rendered := true }

/-! ## AI background refresher (`service/ai_background_service.py`) -/

/-- The sunrise/sunset fields of the cached OpenWeather `sys` payload, as read
by `_is_daytime` and `_sun_moon_context`. The outer `Option` is
`self._weather_cache` being `None` (fetch failed or not attempted); the inner
options are `sys_info.get("sunrise")` / `sys_info.get("sunset")`. -/
abbrev WeatherSys := Option (Option Int × Option Int)

/-- `AIBackgroundService._is_daytime`. `local_hour` is the hour the source
obtains from the configured timezone fallback or the system clock; `now_utc`,
`sunrise` and `sunset` are epoch seconds. Python truthiness makes a zero
timestamp fall through to the local-hour heuristic. -/
def is_daytime (coords_ok : Bool) (weather : WeatherSys) (now_utc : Int)
    (local_hour : Nat) : Bool :=
  if ¬ coords_ok then decide (7 ≤ local_hour ∧ local_hour ≤ 19)
  else
    match weather with
    | some (some sunrise, some sunset) =>
        if sunrise ≠ 0 ∧ sunset ≠ 0 then decide (sunrise ≤ now_utc ∧ now_utc ≤ sunset)
        else decide (7 ≤ local_hour ∧ local_hour ≤ 19)
    | _ => decide (7 ≤ local_hour ∧ local_hour ≤ 19)

/-- Static configuration of the AI background service that the refresh and
fallback logic reads. -/
structure AIBgConfig where
  refresh_seconds : Int
  coords_ok : Bool
  client_ok : Bool
  fallback_image_path_day : String
  fallback_image_path_night : String
  fallback_image_path : String
deriving Repr, DecidableEq

/-- `AIBackgroundService._choose_fallback_path`: day/night specific path when
configured (nonempty), else the legacy single path (possibly empty). -/
def choose_fallback_path (cfg : AIBgConfig) (day : Bool) : String :=
  let candidate := if day then cfg.fallback_image_path_day else cfg.fallback_image_path_night
  if candidate ≠ "" then candidate else cfg.fallback_image_path

/-- Mutable refresh state: `self._last_refresh`. -/
structure AIBgState where
  last_refresh : Option Int
deriving Repr, DecidableEq

/-- `AIBackgroundService._should_refresh`: refresh when never refreshed or the
TTL has elapsed. -/
def should_refresh (refresh_seconds now : Int) (s : AIBgState) : Bool :=
  match s.last_refresh with
  | none => true
  | some t => decide (now - t ≥ refresh_seconds)

/-- Outcome of the generation attempt inside `refresh_background_if_needed`,
as produced by the OpenAI collaborator and the optional URL download:
a base64 payload, a URL whose download succeeds or fails, an empty
response, or a raised exception. -/
inductive GenResult
  | payload
  | urlOk
  | urlFail
  | noPayload
  | raised
deriving Repr, DecidableEq

/-- Per-call environment of one `refresh_background_if_needed` invocation:
what the generation collaborator would return and whether the chosen fallback
file exists on disk. -/
structure AIBgEnv where
  gen : GenResult
  day : Bool
  fallback_file_exists : String → Bool

/-- Observable outcome of one `refresh_background_if_needed` call. `noAttempt`
is the TTL no-op; `generated` covers the base64 and URL-download successes;
`fallbackUsed` is a successful fallback copy; `failed` means no image was
produced and the previous background is kept. -/
inductive RefreshOutcome
  | noAttempt
  | generated
  | fallbackUsed
  | failed
deriving Repr, DecidableEq

/-- `AIBackgroundService._apply_fallback_image`: `true` (and a copy to the
output file) when a fallback path is configured and the file exists. -/
def apply_fallback_image (cfg : AIBgConfig) (env : AIBgEnv) : Bool :=
  let fallback_path := choose_fallback_path cfg env.day
  if fallback_path = "" then false
  else if ¬ env.fallback_file_exists fallback_path then false
  else true

/-- `AIBackgroundService.refresh_background_if_needed`: TTL gate, then
generation with fallback chain. `_last_refresh` is set to `now` on a saved
generated image, a downloaded URL image, or a successful fallback copy; it is
left unchanged on the no-op path and on a fully failed attempt. -/
def refresh_background_if_needed (cfg : AIBgConfig) (env : AIBgEnv) (now : Int)
    (s : AIBgState) : AIBgState × RefreshOutcome :=
  let fallbackStep : AIBgState × RefreshOutcome :=
    if apply_fallback_image cfg env
    then ({ last_refresh := some now }, .fallbackUsed)
    else (s, .failed)
  if ¬ should_refresh cfg.refresh_seconds now s then (s, .noAttempt)
  else if ¬ cfg.coords_ok then fallbackStep
  else if ¬ cfg.client_ok then fallbackStep
  else
    match env.gen with
    | .payload => ({ last_refresh := some now }, .generated)
    | .urlOk => ({ last_refresh := some now }, .generated)
    | .urlFail => fallbackStep
    | .noPayload => fallbackStep
    | .raised => fallbackStep

/-- Whether a `refresh_background_if_needed` call made an upstream attempt
(generation or fallback) rather than the TTL no-op. -/
def madeAttempt (o : RefreshOutcome) : Bool :=
  o ≠ .noAttempt

/-! ## Toggle/settings store (`now_playing.py`, save/load of toggle state) -/

/-- The in-memory toggle settings fields of `NowPlaying`:
`_ai_bg_fallback_mode`, `_orientation`, `_portrait_rotate_degrees`,
`_landscape_rotate_degrees`. -/
structure ToggleSettings where
  ai_bg_fallback_mode : Bool
  orientation : String
  portrait_rotate_degrees : Int
  landscape_rotate_degrees : Int
deriving Repr, DecidableEq

/-- The JSON record written by `_save_toggle_state_to_file`. -/
structure ToggleFile where
  ai_bg_fallback_mode : Bool
  orientation : String
  rotation : Bool
deriving Repr, DecidableEq

/-- `_encode_rotation_bool` inside `_save_toggle_state_to_file`: consolidate
the two per-orientation degree fields into one bool. -/
def encode_rotation_bool (p_deg l_deg : Int) : Bool :=
  let p_bool : Option Bool :=
    if p_deg = 270 then some true else if p_deg = 0 then some false else none
  let l_bool : Option Bool :=
    if l_deg = 180 then some true else if l_deg = 0 then some false else none
  match p_bool, l_bool with
  | some pv, some lv => if pv = lv then pv else pv
  | some pv, none => pv
  | none, some lv => lv
  | none, none => true

/-- `NowPlaying._save_toggle_state_to_file`: the durable record written
(atomically, via a temp file and rename) for a given in-memory state. -/
def save_toggle_state_to_file (s : ToggleSettings) : ToggleFile :=
  { ai_bg_fallback_mode := s.ai_bg_fallback_mode
    orientation := s.orientation
    rotation := encode_rotation_bool s.portrait_rotate_degrees s.landscape_rotate_degrees }

/-- `_decode_rotation_value` inside `_load_toggle_state_from_file`, on the
bool-valued `rotation` field actually produced by the save path (the literal
orientation argument is resolved): portrait true/false maps to 270/90 and
landscape true/false maps to 180/0. -/
def decode_rotation_value (raw_value : Bool) (portrait : Bool) : Int :=
  if raw_value ∧ portrait then 270
  else if portrait then 90
  else if raw_value then 180 else 0

/-- `NowPlaying._load_toggle_state_from_file` applied to a file record in the
format the save path writes (`rotation` a single bool): the fallback flag is
read as a bool, the orientation string falls back to the current one when
empty and is lowercased, and the single rotation bool drives both
per-orientation degree fields. `current` is the in-memory state before the
load. -/
def load_toggle_state_from_file (f : ToggleFile) (current : ToggleSettings) :
    ToggleSettings :=
  { ai_bg_fallback_mode := f.ai_bg_fallback_mode
    orientation := pyLower (if f.orientation = "" then current.orientation else f.orientation)
    portrait_rotate_degrees := decode_rotation_value f.rotation true
    landscape_rotate_degrees := decode_rotation_value f.rotation false }

/-! ## Presentation state machine (`now_playing.py` tick loop)

`now_playing.py` drives the loop, but the `StateManager` class it calls
(`state_manager.py`) is not among the sources; its queries and setters are
modelled from the spec where marked. -/

/-- `DisplayState` variants from the spec data model (the `state_manager`
module referenced by `now_playing.py`). -/
inductive DisplayState
  | CLEAN
  | PLAYING
  | SCREENSAVER
deriving Repr, DecidableEq

/-- The render calls `now_playing.py` issues through `DisplayService`:
`clean_display`, `update_display_to_playing`, `update_display_to_screensaver`. -/
inductive RenderEvent
  | clean
  | playing (title artist : String)
  | screensaver
deriving Repr, DecidableEq

/-- Modelled from the spec: the `StateManager` state (module missing from the
sources) — the current `DisplayState`, the displayed song for `PLAYING`, the
last-music-detected timestamp, and the diagnostic image counter. -/
structure NPState where
  current : DisplayState
  playing_title : String
  playing_artist : String
  last_music_detected : Int
  image_counter : Nat
deriving Repr, DecidableEq

/-- Modelled from the spec: `StateManager.should_clean_display` (module
missing from the sources). Spec 4.1: `CLEAN` is re-entered before any mode
switch, so a clean render is required exactly when the current state is a
content state. -/
def should_clean_display (s : NPState) : Bool :=
  s.current ≠ .CLEAN

/-- Modelled from the spec:
`StateManager.music_still_playing_but_different_song_identified` (module
missing from the sources). Spec 4.1: still `PLAYING` but the resolved title
differs from the currently displayed title. -/
def different_song_identified (s : NPState) (title : String) : Bool :=
  s.current = .PLAYING ∧ s.playing_title ≠ title

/-- Modelled from the spec: `StateManager.no_music_detected_for_more_than_a_minute`
(module missing from the sources). Spec 4.1: more than a fixed quiet period
(60 s) since the last positive classification. -/
def no_music_for_more_than_a_minute (s : NPState) (now : Int) : Bool :=
  decide (now - s.last_music_detected > 60)

/-- One tick of the run loop, as classified by
`_record_audio_and_detect_music` and the collaborators: either music was
detected (with the identification outcome, `none` when `identify_sync`
resolved nothing), or no music was detected. `weather_outdated` is the
outcome of the `screensaver_still_up_but_weather_info_outdated` staleness
check against the weather cache (spec 4.1), an input here because the weather
cache rotation is driven by the collaborator. -/
inductive TickInput
  | music (song : Option (String × String)) (now : Int)
  | noMusic (weather_outdated : Bool) (now : Int)

/-- A tick-loop configuration: the state-manager state plus the trace of
render calls issued so far, most recent first. -/
structure LoopState where
  st : NPState
  trace : List RenderEvent
deriving Repr, DecidableEq

/-- `NowPlaying._clean_display_and_set_clean_state`: issue the full-clear
render and enter `CLEAN`. -/
def clean_display_and_set_clean_state (ls : LoopState) : LoopState :=
  { st := { ls.st with current := .CLEAN }
    trace := .clean :: ls.trace }

/-- `NowPlaying._set_playing_state_and_update_display`: clean first when the
state manager asks for it, then enter `PLAYING` and render the song. (The
toggle-state refresh issues no render and is omitted.) -/
def set_playing_state_and_update_display (ls : LoopState) (title artist : String) :
    LoopState :=
  let ls1 := if should_clean_display ls.st then clean_display_and_set_clean_state ls else ls
  { st := { ls1.st with
      current := .PLAYING
      playing_title := title
      playing_artist := artist
      image_counter := ls1.st.image_counter + 1 }
    trace := .playing title artist :: ls1.trace }

/-- `NowPlaying._set_screensaver_state_and_update_display`: clean first when
the state manager asks for it, then enter `SCREENSAVER` and render it. -/
def set_screensaver_state_and_update_display (ls : LoopState) : LoopState :=
  let ls1 := if should_clean_display ls.st then clean_display_and_set_clean_state ls else ls
  { st := { ls1.st with
      current := .SCREENSAVER
      image_counter := ls1.st.image_counter + 1 }
    trace := .screensaver :: ls1.trace }

/-- `NowPlaying._handle_music_detected`: redraw on a resolved identity when
not already `PLAYING` or when a different song is identified; always update
the last-music-detected timestamp. -/
def handle_music_detected (ls : LoopState) (song : Option (String × String))
    (now : Int) : LoopState :=
  let ls1 :=
    match song with
    | some (title, artist) =>
        if ls.st.current ≠ .PLAYING ∨ different_song_identified ls.st title then
          set_playing_state_and_update_display ls title artist
        else ls
    | none => ls
  { ls1 with st := { ls1.st with last_music_detected := now } }

/-- `NowPlaying._handle_no_music_detected`: the opportunistic AI background
refresh issues no display render; then render the screensaver when entering
it after the quiet period, or when it is already up but the weather snapshot
rotated. -/
def handle_no_music_detected (ls : LoopState) (weather_outdated : Bool)
    (now : Int) : LoopState :=
  if (ls.st.current ≠ .SCREENSAVER ∧ no_music_for_more_than_a_minute ls.st now)
      ∨ (ls.st.current = .SCREENSAVER ∧ weather_outdated) then
    set_screensaver_state_and_update_display ls
  else ls

/-- One iteration of `NowPlaying.run`. -/
def tick (ls : LoopState) : TickInput → LoopState
  | .music song now => handle_music_detected ls song now
  | .noMusic weather_outdated now => handle_no_music_detected ls weather_outdated now

/-- The run loop over a list of tick inputs. -/
def runTicks (ls : LoopState) : List TickInput → LoopState
  | [] => ls
  | i :: is => runTicks (tick ls i) is

/-- The configuration right after `NowPlaying.__init__`, which ends with
`_clean_display_and_set_clean_state`: state `CLEAN`, one clean render issued. -/
def initLoopState : LoopState :=
  { st := { current := .CLEAN, playing_title := "", playing_artist := ""
            last_music_detected := 0, image_counter := 0 }
    trace := [.clean] }

/-- The claimed temporal property of a render trace (most recent first):
every content render (playing or screensaver) is immediately preceded by a
full-clear render. -/
def cleanBeforeContent : List RenderEvent → Bool
  | [] => true
  | .clean :: rest => cleanBeforeContent rest
  | .playing _ _ :: rest => (rest.head? = some .clean) && cleanBeforeContent rest
  | .screensaver :: rest => (rest.head? = some .clean) && cleanBeforeContent rest

/-! ## Claim C1: mandatory clean render before any content render -/

/-- Loop invariant carried through the ticks: the trace satisfies the
clean-before-content property, and whenever the state manager is in `CLEAN`
the most recent render was the full clear. -/
def TraceInv (ls : LoopState) : Prop :=
  cleanBeforeContent ls.trace = true ∧
    (ls.st.current = .CLEAN → ls.trace.head? = some .clean)

lemma pre_clean_head (ls : LoopState) (h : TraceInv ls) :
    (if should_clean_display ls.st then clean_display_and_set_clean_state ls else ls).trace.head?
      = some .clean ∧
    cleanBeforeContent
      (if should_clean_display ls.st then clean_display_and_set_clean_state ls else ls).trace
      = true := by
  by_cases hc : should_clean_display ls.st = true
  · simp only [hc, if_true, clean_display_and_set_clean_state]
    exact ⟨rfl, by simpa [cleanBeforeContent] using h.1⟩
  · have hcl : ls.st.current = .CLEAN := by
      by_contra hne
      exact hc (by simp [should_clean_display, hne])
    simp only [hc, if_false, Bool.false_eq_true]
    exact ⟨h.2 hcl, h.1⟩

lemma setPlaying_traceInv (ls : LoopState) (t a : String) (h : TraceInv ls) :
    TraceInv (set_playing_state_and_update_display ls t a) := by
  obtain ⟨hh, hcb⟩ := pre_clean_head ls h
  refine ⟨?_, ?_⟩
  · simp [set_playing_state_and_update_display, cleanBeforeContent, hh, hcb]
  · intro habs
    simp [set_playing_state_and_update_display] at habs

lemma setScreensaver_traceInv (ls : LoopState) (h : TraceInv ls) :
    TraceInv (set_screensaver_state_and_update_display ls) := by
  obtain ⟨hh, hcb⟩ := pre_clean_head ls h
  refine ⟨?_, ?_⟩
  · simp [set_screensaver_state_and_update_display, cleanBeforeContent, hh, hcb]
  · intro habs
    simp [set_screensaver_state_and_update_display] at habs

lemma tick_traceInv (ls : LoopState) (i : TickInput) (h : TraceInv ls) :
    TraceInv (tick ls i) := by
  cases i with
  | music song now =>
      cases song with
      | none => exact ⟨h.1, fun hc => h.2 hc⟩
      | some ta =>
          simp only [tick, handle_music_detected]
          split
          · have h' := setPlaying_traceInv ls ta.1 ta.2 h
            exact ⟨h'.1, fun hc => h'.2 hc⟩
          · exact ⟨h.1, fun hc => h.2 hc⟩
  | noMusic w now =>
      simp only [tick, handle_no_music_detected]
      split
      · exact setScreensaver_traceInv ls h
      · exact h

lemma runTicks_traceInv (inputs : List TickInput) (ls : LoopState) (h : TraceInv ls) :
    TraceInv (runTicks ls inputs) := by
  induction inputs generalizing ls with
  | nil => exact h
  | cons i is ih => exact ih (tick ls i) (tick_traceInv ls i h)

/-- Claim C1: for every sequence of classification results driving the run
loop from the initial (cleaned) configuration, the resulting render trace
never contains a `PLAYING` or `SCREENSAVER` content render that is not
immediately preceded by a full-clear `CLEAN` render: the two-step sequence is
never skipped. -/
theorem claim_C1_clean_before_content (inputs : List TickInput) :
    cleanBeforeContent (runTicks initLoopState inputs).trace = true :=
  (runTicks_traceInv inputs initLoopState ⟨rfl, fun _ => rfl⟩).1

/-! ## Claims C3 and C9: weather cache degrade-in-place behavior -/

/-- The freshness guard of `get_weather_info`: a cached snapshot with a
fetch timestamp younger than the TTL. -/
def weather_cache_fresh (refresh_seconds now : Int) (cached : Option WeatherInfo) : Bool :=
  match cached with
  | some ci =>
      match ci.fetched_at with
      | some fa => decide (now - fa < refresh_seconds)
      | none => false
  | none => false

/-- Claim C3: a snapshot within its TTL is returned without fetching; on a
fetch failure the previous snapshot is returned when one exists, and
otherwise the sentinel snapshot with placeholder temperature `inf` and
description `No weather info` is returned; the operation is a total function
of its inputs, so it never raises to the caller. -/
theorem claim_C3_weather_failure_fallback (refresh_seconds now : Int)
    (fetchResult : Option RawWeather) (cached : Option WeatherInfo) :
    (∀ ci fa, cached = some ci → ci.fetched_at = some fa → now - fa < refresh_seconds →
      get_weather_info refresh_seconds now fetchResult cached = (ci, some ci, false)) ∧
    (∀ ci, (get_weather_info refresh_seconds now none (some ci)).1 = ci) ∧
    (get_weather_info refresh_seconds now none none).1 = default_weather_info now ∧
    (default_weather_info now).temperature = some "inf" ∧
    (default_weather_info now).sub_description = some "No weather info" := by
  refine ⟨?_, ?_, ?_, rfl, rfl⟩
  · rintro ci fa rfl hfa hlt
    simp [get_weather_info, hfa, hlt]
  · intro ci
    simp only [get_weather_info]
    cases hfa : ci.fetched_at with
    | none => rfl
    | some fa =>
        by_cases hlt : now - fa < refresh_seconds
        · simp [hfa, hlt]
        · simp [hfa, hlt]
  · rfl

/-- Claim C9: a failed upstream fetch leaves the cache slot exactly unchanged
(same snapshot, same fetch timestamp), so a negative result is never
recorded; and whenever the cached snapshot is absent or past its TTL, the
call issues the upstream fetch again (whatever its outcome will be). -/
theorem claim_C9_failed_fetch_state_unchanged (refresh_seconds now : Int)
    (fetchResult : Option RawWeather) (cached : Option WeatherInfo) :
    (get_weather_info refresh_seconds now none cached).2.1 = cached ∧
    (weather_cache_fresh refresh_seconds now cached = false →
      (get_weather_info refresh_seconds now fetchResult cached).2.2 = true) := by
  constructor
  · cases cached with
    | none => rfl
    | some ci =>
        simp only [get_weather_info]
        cases hfa : ci.fetched_at with
        | none => rfl
        | some fa =>
            by_cases hlt : now - fa < refresh_seconds
            · simp [hlt]
            · simp [hlt]
  · intro hstale
    cases cached with
    | none =>
        cases fetchResult with
        | none => rfl
        | some raw => rfl
    | some ci =>
        simp only [get_weather_info]
        cases hfa : ci.fetched_at with
        | none =>
            cases fetchResult with
            | none => rfl
            | some raw => rfl
        | some fa =>
            have hlt : ¬ now - fa < refresh_seconds := by
              simpa [weather_cache_fresh, hfa] using hstale
            cases fetchResult with
            | none => simp [hlt]
            | some raw => simp [hlt]

/-- Witness for claim C3 at a concrete fresh snapshot. -/
theorem claim_C3_witness :
    get_weather_info 900 100 none
        (some { temperature := some "5°C", sub_description := some "d", fetched_at := some 50 })
      = ({ temperature := some "5°C", sub_description := some "d", fetched_at := some 50 },
         some { temperature := some "5°C", sub_description := some "d", fetched_at := some 50 },
         false) :=
  (claim_C3_weather_failure_fallback 900 100 none _).1 _ 50 rfl rfl (by decide)

/-- Witness for claim C9 at a concrete empty cache slot. -/
theorem claim_C9_witness :
    (get_weather_info 900 100 none none).2.1 = none ∧
    (get_weather_info 900 100 none none).2.2 = true :=
  ⟨(claim_C9_failed_fetch_state_unchanged 900 100 none none).1,
   (claim_C9_failed_fetch_state_unchanged 900 100 none none).2 rfl⟩

/-! ## Claim C4: TTL idempotence of the background refresher -/

lemma refresh_noop_when_fresh (cfg : AIBgConfig) (env : AIBgEnv) (now : Int)
    (s : AIBgState) (hfresh : should_refresh cfg.refresh_seconds now s = false) :
    refresh_background_if_needed cfg env now s = (s, .noAttempt) := by
  simp [refresh_background_if_needed, hfresh]

lemma refresh_attempt_cases (cfg : AIBgConfig) (env : AIBgEnv) (now : Int)
    (s : AIBgState) (hdue : should_refresh cfg.refresh_seconds now s = true) :
    refresh_background_if_needed cfg env now s
        = ({ last_refresh := some now }, .generated) ∨
    refresh_background_if_needed cfg env now s
        = ({ last_refresh := some now }, .fallbackUsed) ∨
    refresh_background_if_needed cfg env now s = (s, .failed) := by
  simp only [refresh_background_if_needed, hdue, not_true, if_false]
  by_cases hco : cfg.coords_ok <;> by_cases hcl : cfg.client_ok <;>
    by_cases hfb : apply_fallback_image cfg env <;>
      cases hg : env.gen <;>
        simp [hfb, hg, hco, hcl]

/-- Claim C4: starting from a state that is due for refresh, the first call
makes exactly one upstream attempt; when that attempt completes as a true
generation success or as a fallback-copy success, the last-refresh anchor is
set to the call time in both cases, so a second call within the TTL window is
a no-op (no second attempt, state unchanged); a fully failed attempt (no
fallback configured or file missing) leaves the anchor unchanged. -/
theorem claim_C4_refresh_idempotent (cfg : AIBgConfig) (env₁ env₂ : AIBgEnv)
    (now₀ now₁ : Int) (s : AIBgState)
    (hdue : should_refresh cfg.refresh_seconds now₀ s = true)
    (hwin : now₁ - now₀ < cfg.refresh_seconds) :
    madeAttempt (refresh_background_if_needed cfg env₁ now₀ s).2 = true ∧
    ((refresh_background_if_needed cfg env₁ now₀ s).2 = .generated ∨
        (refresh_background_if_needed cfg env₁ now₀ s).2 = .fallbackUsed →
      (refresh_background_if_needed cfg env₁ now₀ s).1.last_refresh = some now₀ ∧
      refresh_background_if_needed cfg env₂ now₁
          (refresh_background_if_needed cfg env₁ now₀ s).1
        = ((refresh_background_if_needed cfg env₁ now₀ s).1, .noAttempt)) ∧
    ((refresh_background_if_needed cfg env₁ now₀ s).2 = .failed →
      (refresh_background_if_needed cfg env₁ now₀ s).1 = s) := by
  rcases refresh_attempt_cases cfg env₁ now₀ s hdue with h | h | h <;>
    rw [h] <;> dsimp only <;> refine ⟨rfl, ?_, ?_⟩
  · intro _
    refine ⟨rfl, refresh_noop_when_fresh cfg env₂ now₁ _ ?_⟩
    simp [should_refresh]
    omega
  · intro hab
    cases hab
  · intro _
    refine ⟨rfl, refresh_noop_when_fresh cfg env₂ now₁ _ ?_⟩
    simp [should_refresh]
    omega
  · intro hab
    cases hab
  · intro hab
    rcases hab with hab | hab <;> cases hab
  · intro _
    rfl

/-- Concrete configuration with only a daytime fallback image, used by the
claim C4 witness. -/
def fallbackOnlyConfig : AIBgConfig :=
  { refresh_seconds := 100, coords_ok := false, client_ok := false
    fallback_image_path_day := "day.png", fallback_image_path_night := ""
    fallback_image_path := "" }

/-- Concrete per-call environment whose fallback file exists, used by the
claim C4 witness. -/
def fallbackOnlyEnv : AIBgEnv :=
  { gen := .raised, day := true, fallback_file_exists := fun _ => true }

/-- Witness for claim C4: a concrete fallback-copy success followed by a call
50 seconds later inside the 100 second TTL window. -/
theorem claim_C4_witness :
    madeAttempt (refresh_background_if_needed fallbackOnlyConfig fallbackOnlyEnv 0
        { last_refresh := none }).2 = true ∧
    refresh_background_if_needed fallbackOnlyConfig fallbackOnlyEnv 50
        (refresh_background_if_needed fallbackOnlyConfig fallbackOnlyEnv 0
          { last_refresh := none }).1
      = ((refresh_background_if_needed fallbackOnlyConfig fallbackOnlyEnv 0
          { last_refresh := none }).1, .noAttempt) := by
  have h := claim_C4_refresh_idempotent fallbackOnlyConfig fallbackOnlyEnv fallbackOnlyEnv
    0 50 { last_refresh := none } rfl (by decide)
  exact ⟨h.1, (h.2.1 (Or.inr rfl)).2⟩

/-! ## Claim C8: day/night choice for the static fallback image -/

lemma choose_fallback_path_of_configured (cfg : AIBgConfig) (d : Bool)
    (hday : cfg.fallback_image_path_day ≠ "")
    (hnight : cfg.fallback_image_path_night ≠ "") :
    choose_fallback_path cfg d
      = (if d then cfg.fallback_image_path_day else cfg.fallback_image_path_night) := by
  cases d <;> simp [choose_fallback_path, hday, hnight]

/-- Claim C8: with both day and night fallback images configured, the choice
is driven by the weather sunrise/sunset interval when the collaborator made
it available, and otherwise by the fixed local-hour heuristic: every local
hour `h` with `7 ≤ h ≤ 19` selects the day image and every other hour the
night image. -/
theorem claim_C8_fallback_day_night (cfg : AIBgConfig) (weather : WeatherSys)
    (now_utc : Int) (local_hour : Nat)
    (hday : cfg.fallback_image_path_day ≠ "")
    (hnight : cfg.fallback_image_path_night ≠ "") :
    (∀ sunrise sunset, weather = some (some sunrise, some sunset) →
      sunrise ≠ 0 → sunset ≠ 0 →
      choose_fallback_path cfg (is_daytime true weather now_utc local_hour)
        = (if sunrise ≤ now_utc ∧ now_utc ≤ sunset
           then cfg.fallback_image_path_day else cfg.fallback_image_path_night)) ∧
    (weather = none →
      choose_fallback_path cfg (is_daytime true weather now_utc local_hour)
        = (if 7 ≤ local_hour ∧ local_hour ≤ 19
           then cfg.fallback_image_path_day else cfg.fallback_image_path_night)) ∧
    (choose_fallback_path cfg (is_daytime false weather now_utc local_hour)
        = (if 7 ≤ local_hour ∧ local_hour ≤ 19
           then cfg.fallback_image_path_day else cfg.fallback_image_path_night)) := by
  refine ⟨?_, ?_, ?_⟩
  · rintro sunrise sunset rfl hsr hss
    have hd : is_daytime true (some (some sunrise, some sunset)) now_utc local_hour
        = decide (sunrise ≤ now_utc ∧ now_utc ≤ sunset) := by
      simp [is_daytime, hsr, hss]
    rw [hd, choose_fallback_path_of_configured cfg _ hday hnight]
    by_cases hsun : sunrise ≤ now_utc ∧ now_utc ≤ sunset <;> simp [hsun]
  · rintro rfl
    have hd : is_daytime true none now_utc local_hour
        = decide (7 ≤ local_hour ∧ local_hour ≤ 19) := by
      simp [is_daytime]
    rw [hd, choose_fallback_path_of_configured cfg _ hday hnight]
    by_cases hh : 7 ≤ local_hour ∧ local_hour ≤ 19 <;> simp [hh]
  · have hd : is_daytime false weather now_utc local_hour
        = decide (7 ≤ local_hour ∧ local_hour ≤ 19) := by
      simp [is_daytime]
    rw [hd, choose_fallback_path_of_configured cfg _ hday hnight]
    by_cases hh : 7 ≤ local_hour ∧ local_hour ≤ 19 <;> simp [hh]

/-- Concrete configuration with both fallback images, used by the claim C8
witness. -/
def dayNightConfig : AIBgConfig :=
  { refresh_seconds := 100, coords_ok := true, client_ok := true
    fallback_image_path_day := "day.png", fallback_image_path_night := "night.png"
    fallback_image_path := "" }

/-- Witness for claim C8: sunrise 10, sunset 20, current time 15 selects the
day image; absent weather at local hour 22 selects the night image. -/
theorem claim_C8_witness :
    choose_fallback_path dayNightConfig (is_daytime true (some (some 10, some 20)) 15 22)
      = "day.png" ∧
    choose_fallback_path dayNightConfig (is_daytime true none 15 22) = "night.png" := by
  have h₁ := claim_C8_fallback_day_night dayNightConfig (some (some 10, some 20)) 15 22
    (by decide) (by decide)
  have h₂ := claim_C8_fallback_day_night dayNightConfig none 15 22 (by decide) (by decide)
  refine ⟨?_, ?_⟩
  · rw [h₁.1 10 20 rfl (by decide) (by decide)]
    norm_num [dayNightConfig]
  · rw [h₂.2.1 rfl]
    norm_num [dayNightConfig]

/-! ## Claim C6: toggle store round-trip -/

/-- Counterexample to claim C6: the in-memory state with portrait rotation 90
and landscape rotation 180 — reachable through the button C cycle (state 4
back to state 1) — does not survive a save/load round trip: the consolidated
single rotation bool is saved as true, and the load decodes it to portrait
rotation 270. -/
theorem claim_C6_counterexample :
    load_toggle_state_from_file
        (save_toggle_state_to_file
          { ai_bg_fallback_mode := false, orientation := "portrait"
            portrait_rotate_degrees := 90, landscape_rotate_degrees := 180 })
        { ai_bg_fallback_mode := false, orientation := "portrait"
          portrait_rotate_degrees := 90, landscape_rotate_degrees := 180 }
      ≠ { ai_bg_fallback_mode := false, orientation := "portrait"
          portrait_rotate_degrees := 90, landscape_rotate_degrees := 180 } := by
  decide

/-- Claim C6 (amended): saving and reloading yields identical `ToggleSettings`
values for every state whose orientation string is already lowercase and
whose rotation degrees form one of the two bool-consistent pairs
(portrait 90 with landscape 0, or portrait 270 with landscape 180); a mixed
pair is collapsed by the consolidated rotation bool. -/
theorem claim_C6_roundtrip (s : ToggleSettings)
    (horient : pyLower s.orientation = s.orientation)
    (hrot : (s.portrait_rotate_degrees = 90 ∧ s.landscape_rotate_degrees = 0) ∨
        (s.portrait_rotate_degrees = 270 ∧ s.landscape_rotate_degrees = 180)) :
    load_toggle_state_from_file (save_toggle_state_to_file s) s = s := by
  obtain ⟨ai, orient, p, l⟩ := s
  simp only at horient
  rcases hrot with ⟨hp, hl⟩ | ⟨hp, hl⟩ <;> simp only at hp hl <;> subst hp <;> subst hl <;>
    simp [load_toggle_state_from_file, save_toggle_state_to_file,
      encode_rotation_bool, decode_rotation_value, ite_self, horient]

/-- Witness for the amended claim C6 at a concrete consistent state. -/
theorem claim_C6_witness :
    load_toggle_state_from_file
        (save_toggle_state_to_file
          { ai_bg_fallback_mode := true, orientation := "portrait"
            portrait_rotate_degrees := 90, landscape_rotate_degrees := 0 })
        { ai_bg_fallback_mode := true, orientation := "portrait"
          portrait_rotate_degrees := 90, landscape_rotate_degrees := 0 }
      = { ai_bg_fallback_mode := true, orientation := "portrait"
          portrait_rotate_degrees := 90, landscape_rotate_degrees := 0 } :=
  claim_C6_roundtrip _ (by decide) (Or.inl ⟨rfl, rfl⟩)

/-! ## Claim C2: one upstream enrichment fetch per TTL window -/

/-- Replay a list of enrichment calls `(time, title, artist)` through
`_get_cached_or_fetch_album_year`, collecting the upstream fetch events as
`(key, time)` pairs. -/
def runFetchCalls (cap : Nat) (ttl : Int) (cache_file_path : String)
    (fetch : String → String → Option String × Option String) :
    List (Int × String × String) → EnrichCache → EnrichCache × List (String × Int)
  | [], c => (c, [])
  | (t, ti, ar) :: rest, c =>
      let step := get_cached_or_fetch_album_year cap ttl cache_file_path fetch t c ti ar
      let next := runFetchCalls cap ttl cache_file_path fetch rest step.cache
      (next.1, (if step.fetches = 1 then [(make_key ti ar, t)] else []) ++ next.2)

lemma find?_append_key (l : EnrichCache) (k : String) (e : CacheEntry)
    (h : ∀ p ∈ l, p.1 ≠ k) : cacheFind (l ++ [(k, e)]) k = some e := by
  induction l with
  | nil => simp [cacheFind]
  | cons a l ih =>
      have ha : a.1 ≠ k := h a (List.mem_cons_self a l)
      simp only [cacheFind, List.cons_append] at ih ⊢
      rw [List.find?_cons_of_neg _ (by simpa using ha)]
      exact ih (fun p hp => h p (List.mem_cons_of_mem a hp))

lemma filter_ne_key (c : EnrichCache) (k : String) :
    ∀ p ∈ c.filter (fun p => p.1 ≠ k), p.1 ≠ k := by
  intro p hp
  simpa using List.of_mem_filter hp

lemma evict_concat (cap : Nat) (hcap : 1 ≤ cap) (l : EnrichCache) (x : String × CacheEntry) :
    ∃ m, evictOverCapacity cap (l ++ [x]) = l.drop m ++ [x] := by
  induction l with
  | nil =>
      refine ⟨0, ?_⟩
      simp [evictOverCapacity]
      omega
  | cons a l ih =>
      rw [List.cons_append]
      simp only [evictOverCapacity]
      split
      · obtain ⟨m, hm⟩ := ih
        exact ⟨m + 1, by simpa using hm⟩
      · exact ⟨0, by simp⟩

lemma put_cache_find_self (cap : Nat) (hcap : 1 ≤ cap) (c : EnrichCache)
    (k album year : String) (now : Int) :
    cacheFind (put_cache cap c k album year now) k = some ⟨album, year, now⟩ := by
  obtain ⟨m, hm⟩ := evict_concat cap hcap (c.filter (fun p => p.1 ≠ k)) (k, ⟨album, year, now⟩)
  rw [put_cache, hm]
  exact find?_append_key _ _ _ (fun p hp => filter_ne_key c k p (List.mem_of_mem_drop hp))

lemma moveToEnd_find_self (c : EnrichCache) (k : String) (e : CacheEntry)
    (h : cacheFind c k = some e) : cacheFind (moveToEnd c k) k = some e := by
  rw [moveToEnd, h]
  exact find?_append_key _ _ _ (filter_ne_key c k)

lemma moveToEnd_getLast (c : EnrichCache) (k : String) (e : CacheEntry)
    (h : cacheFind c k = some e) : (moveToEnd c k).getLast? = some (k, e) := by
  rw [moveToEnd, h]
  exact List.getLast?_concat _

lemma get_cached_fresh_hit (cap : Nat) (ttl : Int) (path : String)
    (fetch : String → String → Option String × Option String) (now : Int)
    (c : EnrichCache) (title artist : String) (e : CacheEntry)
    (hfind : cacheFind c (make_key title artist) = some e)
    (hfresh : now - e.ts < ttl) :
    get_cached_or_fetch_album_year cap ttl path fetch now c title artist
      = { result := (orNone e.album, orNone e.year)
          cache := moveToEnd c (make_key title artist)
          fetches := 0, persisted := none } := by
  simp [get_cached_or_fetch_album_year, hfind, hfresh]

lemma get_cached_miss (cap : Nat) (ttl : Int) (path : String)
    (fetch : String → String → Option String × Option String) (now : Int)
    (c : EnrichCache) (title artist : String)
    (habs : cacheFind c (make_key title artist) = none) :
    get_cached_or_fetch_album_year cap ttl path fetch now c title artist
      = { result := fetch title artist
          cache := put_cache cap c (make_key title artist)
            ((fetch title artist).1.getD "") ((fetch title artist).2.getD "") now
          fetches := 1
          persisted := persist_cache_to_disk path
            (put_cache cap c (make_key title artist)
              ((fetch title artist).1.getD "") ((fetch title artist).2.getD "") now) } := by
  simp [get_cached_or_fetch_album_year, habs]

lemma window_log_nil (cap : Nat) (ttl : Int) (path : String)
    (fetch : String → String → Option String × Option String) (title artist : String)
    (e : CacheEntry) (ts : List Int) :
    ∀ c : EnrichCache, cacheFind c (make_key title artist) = some e →
      (∀ t ∈ ts, t - e.ts < ttl) →
      (runFetchCalls cap ttl path fetch (ts.map (fun t => (t, title, artist))) c).2 = [] := by
  induction ts with
  | nil => intro c _ _; rfl
  | cons t ts ih =>
      intro c hfind hwin
      have hstep := get_cached_fresh_hit cap ttl path fetch t c title artist e hfind
        (hwin t (List.mem_cons_self t ts))
      have hrest := ih (moveToEnd c (make_key title artist))
        (moveToEnd_find_self c _ e hfind)
        (fun u hu => hwin u (List.mem_cons_of_mem t hu))
      simp [runFetchCalls, hstep, hrest]

/-- Counterexample to claim C2: with a configured capacity of 1, the call
sequence key A at time 0, key B at time 1, key A at time 2 issues two
upstream fetches for key A, both inside one 86400 second TTL window — the
interleaved call for key B evicts the entry for A, so the universally
quantified one-fetch-per-window property fails. -/
theorem claim_C2_counterexample :
    ((runFetchCalls 1 86400 "" (fun _ _ => (none, none))
        [(0, "a", ""), (1, "b", ""), (2, "a", "")] []).2.filter
      (fun ev => ev.1 = make_key "a" "")).length = 2 ∧ (2 : Int) - 0 < 86400 := by
  constructor
  · rfl
  · decide

/-- Claim C2 (amended): a call whose cached entry is younger than the TTL
returns the cached value without any upstream fetch and moves the entry to
the most-recently-used end; consequently, as long as the entry is not evicted
by capacity pressure — in particular for any sequence of calls for that key
alone, starting from a cache not holding it — exactly one upstream fetch is
issued in the whole TTL window opened by the first call. -/
theorem claim_C2_ttl_window (cap : Nat) (ttl : Int) (path : String)
    (fetch : String → String → Option String × Option String) (title artist : String)
    (c : EnrichCache) (hcap : 1 ≤ cap) (t0 : Int) (rest : List Int)
    (habs : cacheFind c (make_key title artist) = none)
    (hwin : ∀ t ∈ rest, t - t0 < ttl) :
    (∀ (c' : EnrichCache) (e : CacheEntry) (now : Int),
      cacheFind c' (make_key title artist) = some e → now - e.ts < ttl →
      get_cached_or_fetch_album_year cap ttl path fetch now c' title artist
        = { result := (orNone e.album, orNone e.year)
            cache := moveToEnd c' (make_key title artist)
            fetches := 0, persisted := none } ∧
      (moveToEnd c' (make_key title artist)).getLast? = some (make_key title artist, e)) ∧
    ((runFetchCalls cap ttl path fetch
        ((t0 :: rest).map (fun t => (t, title, artist))) c).2.filter
      (fun ev => ev.1 = make_key title artist)).length = 1 := by
  constructor
  · intro c' e now hf hfr
    exact ⟨get_cached_fresh_hit cap ttl path fetch now c' title artist e hf hfr,
      moveToEnd_getLast c' _ e hf⟩
  · have hstep := get_cached_miss cap ttl path fetch t0 c title artist habs
    have hfound := put_cache_find_self cap hcap c (make_key title artist)
      ((fetch title artist).1.getD "") ((fetch title artist).2.getD "") t0
    have hrest := window_log_nil cap ttl path fetch title artist
      ⟨(fetch title artist).1.getD "", (fetch title artist).2.getD "", t0⟩ rest
      _ hfound hwin
    simp [runFetchCalls, hstep, hrest]

/-- Witness for the amended claim C2: key A fetched once at time 0 and hit
again at time 5 inside a 10 second TTL, with capacity 1. -/
theorem claim_C2_witness :
    ((runFetchCalls 1 10 "" (fun _ _ => (none, none))
        ([(0 : Int), 5].map (fun t => (t, "a", ""))) []).2.filter
      (fun ev => ev.1 = make_key "a" "")).length = 1 :=
  (claim_C2_ttl_window 1 10 "" (fun _ _ => (none, none)) "a" "" []
    (by decide) 0 [5] rfl (by intro t ht; simp at ht; omega)).2

/-! ## Claim C7: miss or expiry fetches once, stores nulls, persists -/

/-- Claim C7: whenever the key is absent, or present but expired, one single
call to the enrichment collaborator is issued, the fetched pair is stored in
the cache under the normalized key even when the collaborator returns two
nulls (stored as empty strings with the call timestamp), and — when a cache
file path is configured — the full post-insertion cache is persisted to
durable storage. -/
theorem claim_C7_miss_fetch_store_persist (cap : Nat) (ttl : Int) (path : String)
    (fetch : String → String → Option String × Option String) (now : Int)
    (c : EnrichCache) (title artist : String) (hcap : 1 ≤ cap) (hpath : path ≠ "")
    (hmiss : cacheFind c (make_key title artist) = none ∨
      ∃ e, cacheFind c (make_key title artist) = some e ∧ ¬ now - e.ts < ttl) :
    (get_cached_or_fetch_album_year cap ttl path fetch now c title artist).fetches = 1 ∧
    cacheFind (get_cached_or_fetch_album_year cap ttl path fetch now c title artist).cache
        (make_key title artist)
      = some ⟨(fetch title artist).1.getD "", (fetch title artist).2.getD "", now⟩ ∧
    (get_cached_or_fetch_album_year cap ttl path fetch now c title artist).persisted
      = some (get_cached_or_fetch_album_year cap ttl path fetch now c title artist).cache := by
  have hred : get_cached_or_fetch_album_year cap ttl path fetch now c title artist
      = { result := fetch title artist
          cache := put_cache cap c (make_key title artist)
            ((fetch title artist).1.getD "") ((fetch title artist).2.getD "") now
          fetches := 1
          persisted := persist_cache_to_disk path
            (put_cache cap c (make_key title artist)
              ((fetch title artist).1.getD "") ((fetch title artist).2.getD "") now) } ∨
      get_cached_or_fetch_album_year cap ttl path fetch now c title artist
      = { result := fetch title artist
          cache := put_cache cap (c.filter (fun p => p.1 ≠ make_key title artist))
            (make_key title artist)
            ((fetch title artist).1.getD "") ((fetch title artist).2.getD "") now
          fetches := 1
          persisted := persist_cache_to_disk path
            (put_cache cap (c.filter (fun p => p.1 ≠ make_key title artist))
              (make_key title artist)
              ((fetch title artist).1.getD "") ((fetch title artist).2.getD "") now) } := by
    rcases hmiss with habs | ⟨e, hfind, hexp⟩
    · exact Or.inl (get_cached_miss cap ttl path fetch now c title artist habs)
    · refine Or.inr ?_
      simp [get_cached_or_fetch_album_year, hfind, hexp]
  rcases hred with hred | hred <;> rw [hred] <;>
    exact ⟨rfl, put_cache_find_self cap hcap _ _ _ _ _, by simp [persist_cache_to_disk, hpath]⟩

/-- Witness for claim C7: a miss on the empty cache with a null-returning
collaborator, capacity 1 and a configured cache file. -/
theorem claim_C7_witness :
    (get_cached_or_fetch_album_year 1 10 "cache.json" (fun _ _ => (none, none)) 0 []
        "a" "").fetches = 1 ∧
    cacheFind (get_cached_or_fetch_album_year 1 10 "cache.json" (fun _ _ => (none, none)) 0 []
        "a" "").cache (make_key "a" "") = some ⟨"", "", 0⟩ ∧
    (get_cached_or_fetch_album_year 1 10 "cache.json" (fun _ _ => (none, none)) 0 []
        "a" "").persisted
      = some (get_cached_or_fetch_album_year 1 10 "cache.json" (fun _ _ => (none, none)) 0 []
        "a" "").cache :=
  claim_C7_miss_fetch_store_persist 1 10 "cache.json" (fun _ _ => (none, none)) 0 [] "a" ""
    (by decide) (by decide) (Or.inl rfl)

/-! ## Claim C10: process return value and debounce behavior -/

/-- Claim C10: on a successful identification, `process` returns a non-None
`SongInfo` whose album and release year keep the identifier-provided values
when they are non-empty and otherwise take the cached/fetched enrichment
values; and when the same normalized key is inside the debounce window and
`force_update` is false, no display update happens and the last-rendered key
and timestamp are left unchanged while the enriched `SongInfo` is still
returned. -/
theorem claim_C10_process_enrich_debounce (cap : Nat) (ttl debounce_seconds : Int)
    (path : String) (fetch : String → String → Option String × Option String)
    (si : SongInfo) (force_update : Bool) (now : Int) (st : OrchState) :
    (process cap ttl debounce_seconds path fetch (some si) force_update now st).result
      = some { si with
          album := pyOr si.album
            (get_cached_or_fetch_album_year cap ttl path fetch now st.cache
              (si.title.getD "") (si.artist.getD "")).result.1
          release_year := pyOr si.release_year
            (get_cached_or_fetch_album_year cap ttl path fetch now st.cache
              (si.title.getD "") (si.artist.getD "")).result.2 } ∧
    (∀ s, si.album = some s → s ≠ "" →
      ((process cap ttl debounce_seconds path fetch (some si) force_update now st).result.map
        SongInfo.album) = some (some s)) ∧
    (si.album = none ∨ si.album = some "" →
      ((process cap ttl debounce_seconds path fetch (some si) force_update now st).result.map
        SongInfo.album)
        = some (get_cached_or_fetch_album_year cap ttl path fetch now st.cache
            (si.title.getD "") (si.artist.getD "")).result.1) ∧
    (∀ s, si.release_year = some s → s ≠ "" →
      ((process cap ttl debounce_seconds path fetch (some si) force_update now st).result.map
        SongInfo.release_year) = some (some s)) ∧
    (si.release_year = none ∨ si.release_year = some "" →
      ((process cap ttl debounce_seconds path fetch (some si) force_update now st).result.map
        SongInfo.release_year)
        = some (get_cached_or_fetch_album_year cap ttl path fetch now st.cache
            (si.title.getD "") (si.artist.getD "")).result.2) ∧
    (force_update = false →
      is_debounced debounce_seconds now st (make_key_opt si.title si.artist) = true →
      (process cap ttl debounce_seconds path fetch (some si) force_update now st).rendered
          = false ∧
      (process cap ttl debounce_seconds path fetch (some si) force_update now st).state.last_track_key
          = st.last_track_key ∧
      (process cap ttl debounce_seconds path fetch (some si) force_update now st).state.last_update_ts
          = st.last_update_ts) := by
  have hres : (process cap ttl debounce_seconds path fetch (some si) force_update now st).result
      = some { si with
          album := pyOr si.album
            (get_cached_or_fetch_album_year cap ttl path fetch now st.cache
              (si.title.getD "") (si.artist.getD "")).result.1
          release_year := pyOr si.release_year
            (get_cached_or_fetch_album_year cap ttl path fetch now st.cache
              (si.title.getD "") (si.artist.getD "")).result.2 } := by
    simp only [process]
    split <;> rfl
  refine ⟨hres, ?_, ?_, ?_, ?_, ?_⟩
  · intro s hs hne
    rw [hres]
    simp [pyOr, hs, hne]
  · intro hempty
    rw [hres]
    rcases hempty with h | h <;> simp [pyOr, h]
  · intro s hs hne
    rw [hres]
    simp [pyOr, hs, hne]
  · intro hempty
    rw [hres]
    rcases hempty with h | h <;> simp [pyOr, h]
  · intro hforce hdeb
    subst hforce
    have hcond : (¬ (false : Bool) = true ∧
        is_debounced debounce_seconds now
          { st with cache := (get_cached_or_fetch_album_year cap ttl path fetch now st.cache
              (si.title.getD "") (si.artist.getD "")).cache }
          (make_key_opt si.title si.artist) = true) := by
      constructor
      · simp
      · simpa [is_debounced] using hdeb
    simp only [process, if_pos hcond]
    exact ⟨trivial, trivial, trivial⟩

/-- Witness for claim C10: identified song with key already rendered 5
seconds ago inside a 30 second debounce window; no render, state kept. -/
theorem claim_C10_witness :
    (process 1 10 30 "" (fun _ _ => (some "Alb", some "2001"))
        (some { title := some "T", artist := some "A", album := none
                album_art := none, release_year := some "1999" })
        false 5 { cache := [], last_track_key := some (make_key "T" "A"), last_update_ts := 0 }).rendered
      = false ∧
    (process 1 10 30 "" (fun _ _ => (some "Alb", some "2001"))
        (some { title := some "T", artist := some "A", album := none
                album_art := none, release_year := some "1999" })
        false 5 { cache := [], last_track_key := some (make_key "T" "A"), last_update_ts := 0 }).state.last_track_key
      = some (make_key "T" "A") ∧
    ((process 1 10 30 "" (fun _ _ => (some "Alb", some "2001"))
        (some { title := some "T", artist := some "A", album := none
                album_art := none, release_year := some "1999" })
        false 5 { cache := [], last_track_key := some (make_key "T" "A"), last_update_ts := 0 }).result.map
      SongInfo.album) = some (some "Alb") := by
  have h := claim_C10_process_enrich_debounce 1 10 30 ""
    (fun _ _ => (some "Alb", some "2001"))
    { title := some "T", artist := some "A", album := none
      album_art := none, release_year := some "1999" }
    false 5 { cache := [], last_track_key := some (make_key "T" "A"), last_update_ts := 0 }
  have hdeb : is_debounced 30 5
      { cache := [], last_track_key := some (make_key "T" "A"), last_update_ts := 0 }
      (make_key_opt (some "T") (some "A")) = true := by decide
  obtain ⟨hren, hkey, _⟩ := h.2.2.2.2.2 rfl hdeb
  exact ⟨hren, hkey, by rw [h.2.2.1 (Or.inl rfl)]; rfl⟩

/-! ## Claim C5: capacity bound and strict LRU eviction -/

/-- Counterexample to claim C5: with configured capacity 1, reloading a
durable cache file holding two entries leaves the cache at size 2 —
`_load_cache_from_disk` never trims to capacity, so the size invariant is
violated immediately after the wholesale startup reload. -/
theorem claim_C5_counterexample :
    ¬ (load_cache_from_disk "cache.json"
        [("a", ⟨"x", "2000", 0⟩), ("b", ⟨"y", "2001", 0⟩)]).length ≤ 1 := by
  decide

/-- Ghost-instrumented cache for the LRU argument: each entry additionally
carries the index of the operation that last inserted or accessed it (its
access stamp). Projecting the stamp away recovers the embedded cache. -/
abbrev GCache := List (String × CacheEntry × Nat)

/-- Forget the ghost stamps. -/
def gproj (g : GCache) : EnrichCache :=
  g.map (fun x => (x.1, x.2.1))

/-- The list of ghost access stamps, in cache order. -/
def gstamps (g : GCache) : List Nat :=
  g.map (fun x => x.2.2)

/-- Lookup in the ghost cache. -/
def gfind (g : GCache) (k : String) : Option (CacheEntry × Nat) :=
  (g.find? (fun p => p.1 = k)).map Prod.snd

/-- Ghost `move_to_end`: the accessed entry is restamped with the current
operation index. -/
def gmoveToEnd (g : GCache) (k : String) (n : Nat) : GCache :=
  match gfind g k with
  | none => g
  | some e => (g.filter (fun p => p.1 ≠ k)) ++ [(k, e.1, n)]

/-- Ghost eviction loop, mirroring `evictOverCapacity`. -/
def gevict (cap : Nat) : GCache → GCache
  | [] => []
  | e :: rest => if (e :: rest).length > cap then gevict cap rest else e :: rest

/-- Ghost `_put_cache`: the inserted entry is stamped with the current
operation index. -/
def gput (cap : Nat) (g : GCache) (key album year : String) (now : Int) (n : Nat) :
    GCache :=
  gevict cap ((g.filter (fun p => p.1 ≠ key)) ++ [(key, ⟨album, year, now⟩, n)])

/-- Ghost `_get_cached_or_fetch_album_year` (cache evolution only), stamping
the touched key with the operation index `n`. -/
def gget (cap : Nat) (ttl : Int)
    (fetch : String → String → Option String × Option String)
    (now : Int) (g : GCache) (title artist : String) (n : Nat) : GCache :=
  let key := make_key title artist
  match gfind g key with
  | some e =>
      if now - e.1.ts < ttl then gmoveToEnd g key n
      else gput cap (g.filter (fun p => p.1 ≠ key)) key
        ((fetch title artist).1.getD "") ((fetch title artist).2.getD "") now n
  | none =>
      gput cap g key
        ((fetch title artist).1.getD "") ((fetch title artist).2.getD "") now n

/-- Ghost reload: stamps are assigned in file order, so entries never touched
since the reload keep their insertion order as recency order. -/
def gload (data : List (String × CacheEntry)) : GCache :=
  data.enum.map (fun p => (p.2.1, p.2.2, p.1))

/-- Stamps strictly increase along the cache: the head is the unique
least-recently-accessed entry. -/
def GSorted (g : GCache) : Prop :=
  (gstamps g).Pairwise (· < ·)

/-- All stamps are below the next operation index. -/
def GBound (g : GCache) (n : Nat) : Prop :=
  ∀ s ∈ gstamps g, s < n

lemma gproj_filter (g : GCache) (k : String) :
    gproj (g.filter (fun p => p.1 ≠ k)) = (gproj g).filter (fun p => p.1 ≠ k) := by
  induction g with
  | nil => rfl
  | cons a g ih =>
      by_cases h : a.1 = k <;> simp [gproj, List.filter_cons, h] <;>
        simpa [gproj] using ih

lemma gfind_proj (g : GCache) (k : String) :
    cacheFind (gproj g) k = (gfind g k).map Prod.fst := by
  induction g with
  | nil => rfl
  | cons a g ih =>
      by_cases h : a.1 = k <;>
        simp [cacheFind, gfind, gproj, List.find?_cons, h] <;>
          simpa [cacheFind, gfind, gproj] using ih

lemma gproj_gevict (cap : Nat) (g : GCache) :
    gproj (gevict cap g) = evictOverCapacity cap (gproj g) := by
  induction g with
  | nil => rfl
  | cons a g ih =>
      have hl : (gproj g).length = g.length := by simp [gproj]
      have hlen : ((a.1, a.2.1) :: gproj g).length = (a :: g).length := by
        simp [hl]
      show gproj (gevict cap (a :: g)) = evictOverCapacity cap ((a.1, a.2.1) :: gproj g)
      by_cases h : (a :: g).length > cap
      · rw [gevict, if_pos h, ih, evictOverCapacity, if_pos (by rw [hlen]; exact h)]
      · rw [gevict, if_neg h, evictOverCapacity, if_neg (by rw [hlen]; exact h)]
        rfl

lemma gproj_gput (cap : Nat) (g : GCache) (key album year : String) (now : Int) (n : Nat) :
    gproj (gput cap g key album year now n) = put_cache cap (gproj g) key album year now := by
  rw [gput, put_cache, gproj_gevict]
  congr 1
  simp only [gproj, List.map_append, List.map_cons, List.map_nil]
  rw [← gproj, ← gproj, gproj_filter]

lemma gproj_gget (cap : Nat) (ttl : Int) (path : String)
    (fetch : String → String → Option String × Option String) (now : Int)
    (g : GCache) (title artist : String) (n : Nat) :
    gproj (gget cap ttl fetch now g title artist n)
      = (get_cached_or_fetch_album_year cap ttl path fetch now (gproj g) title artist).cache := by
  cases hf : gfind g (make_key title artist) with
  | none =>
      have hcf : cacheFind (gproj g) (make_key title artist) = none := by
        rw [gfind_proj, hf]; rfl
      rw [get_cached_miss cap ttl path fetch now (gproj g) title artist hcf]
      simp only [gget, hf]
      exact gproj_gput cap g _ _ _ now n
  | some e =>
      have hcf : cacheFind (gproj g) (make_key title artist) = some e.1 := by
        rw [gfind_proj, hf]; rfl
      by_cases hfr : now - e.1.ts < ttl
      · rw [get_cached_fresh_hit cap ttl path fetch now (gproj g) title artist e.1 hcf hfr]
        simp only [gget, hf, if_pos hfr, gmoveToEnd]
        rw [moveToEnd, hcf]
        simp only [gproj, List.map_append, List.map_cons, List.map_nil]
        rw [← gproj, ← gproj, gproj_filter]
      · have hred : get_cached_or_fetch_album_year cap ttl path fetch now (gproj g) title artist
            = { result := fetch title artist
                cache := put_cache cap ((gproj g).filter (fun p => p.1 ≠ make_key title artist))
                  (make_key title artist)
                  ((fetch title artist).1.getD "") ((fetch title artist).2.getD "") now
                fetches := 1
                persisted := persist_cache_to_disk path
                  (put_cache cap ((gproj g).filter (fun p => p.1 ≠ make_key title artist))
                    (make_key title artist)
                    ((fetch title artist).1.getD "") ((fetch title artist).2.getD "") now) } := by
          simp [get_cached_or_fetch_album_year, hcf, hfr]
        rw [hred]
        simp only [gget, hf, if_neg hfr]
        rw [gproj_gput, gproj_filter]

lemma gevict_eq_drop (cap : Nat) (l : GCache) : ∃ m, gevict cap l = l.drop m := by
  induction l with
  | nil => exact ⟨0, rfl⟩
  | cons a l ih =>
      by_cases h : (a :: l).length > cap
      · obtain ⟨m, hm⟩ := ih
        exact ⟨m + 1, by rw [gevict, if_pos h]; exact hm⟩
      · exact ⟨0, by rw [gevict, if_neg h]; rfl⟩

lemma evict_length_le (cap : Nat) (l : EnrichCache) :
    (evictOverCapacity cap l).length ≤ cap := by
  induction l with
  | nil => exact Nat.zero_le cap
  | cons a l ih =>
      by_cases h : (a :: l).length > cap
      · rw [evictOverCapacity, if_pos h]; exact ih
      · rw [evictOverCapacity, if_neg h]; omega

lemma gstamps_filter_sublist (g : GCache) (k : String) :
    (gstamps (g.filter (fun p => p.1 ≠ k))).Sublist (gstamps g) :=
  (List.filter_sublist g).map _

lemma sorted_append_new (g : GCache) (k : String) (e : CacheEntry) (n : Nat)
    (hs : GSorted g) (hbnd : GBound g n) :
    GSorted ((g.filter (fun p => p.1 ≠ k)) ++ [(k, e, n)]) ∧
    GBound ((g.filter (fun p => p.1 ≠ k)) ++ [(k, e, n)]) (n + 1) := by
  constructor
  · rw [GSorted, gstamps, List.map_append, List.pairwise_append]
    refine ⟨hs.sublist (gstamps_filter_sublist g k), by simp, ?_⟩
    intro a ha b hbm
    simp only [List.map_cons, List.map_nil, List.mem_singleton] at hbm
    subst hbm
    exact hbnd a ((gstamps_filter_sublist g k).subset ha)
  · intro s hsm
    rw [gstamps, List.map_append] at hsm
    rcases List.mem_append.mp hsm with hsm | hsm
    · exact Nat.lt_succ_of_lt (hbnd s ((gstamps_filter_sublist g k).subset hsm))
    · simp only [List.map_cons, List.map_nil, List.mem_singleton] at hsm
      omega

lemma sorted_drop (l : GCache) (m : Nat) (hs : GSorted l) : GSorted (l.drop m) := by
  rw [GSorted, gstamps, List.map_drop]
  exact hs.sublist (List.drop_sublist m _)

lemma bound_drop (l : GCache) (m : Nat) (n : Nat) (hbnd : GBound l n) :
    GBound (l.drop m) n := by
  intro s hsm
  rw [gstamps, List.map_drop] at hsm
  exact hbnd s ((List.drop_sublist m _).subset hsm)

lemma gput_sorted (cap : Nat) (g : GCache) (key album year : String) (now : Int) (n : Nat)
    (hs : GSorted g) (hbnd : GBound g n) :
    GSorted (gput cap g key album year now n) ∧
    GBound (gput cap g key album year now n) (n + 1) := by
  obtain ⟨hsl, hbl⟩ := sorted_append_new g key ⟨album, year, now⟩ n hs hbnd
  obtain ⟨m, hm⟩ := gevict_eq_drop cap
    ((g.filter (fun p => p.1 ≠ key)) ++ [(key, ⟨album, year, now⟩, n)])
  rw [gput, hm]
  exact ⟨sorted_drop _ m hsl, bound_drop _ m (n + 1) hbl⟩

lemma gmove_sorted (g : GCache) (k : String) (n : Nat)
    (hs : GSorted g) (hbnd : GBound g n) :
    GSorted (gmoveToEnd g k n) ∧ GBound (gmoveToEnd g k n) (n + 1) := by
  rw [gmoveToEnd]
  cases gfind g k with
  | none => exact ⟨hs, fun s hsm => Nat.lt_succ_of_lt (hbnd s hsm)⟩
  | some e => exact sorted_append_new g k e.1 n hs hbnd

lemma gget_sorted (cap : Nat) (ttl : Int)
    (fetch : String → String → Option String × Option String) (now : Int)
    (g : GCache) (title artist : String) (n : Nat)
    (hs : GSorted g) (hbnd : GBound g n) :
    GSorted (gget cap ttl fetch now g title artist n) ∧
    GBound (gget cap ttl fetch now g title artist n) (n + 1) := by
  cases hf : gfind g (make_key title artist) with
  | none =>
      simp only [gget, hf]
      exact gput_sorted cap g _ _ _ now n hs hbnd
  | some e =>
      by_cases hfr : now - e.1.ts < ttl
      · simp only [gget, hf, if_pos hfr]
        exact gmove_sorted g _ n hs hbnd
      · simp only [gget, hf, if_neg hfr]
        refine gput_sorted cap _ _ _ _ now n ?_ ?_
        · exact hs.sublist (gstamps_filter_sublist g _)
        · exact fun s hsm => hbnd s ((gstamps_filter_sublist g _).subset hsm)

lemma gput_evicts_lru (cap : Nat) (g : GCache) (key album year : String) (t : Int) (n : Nat)
    (hs : GSorted g) (hbnd : GBound g n) :
    ∃ m, gput cap g key album year t n
        = List.drop m ((g.filter (fun p => p.1 ≠ key)) ++ [(key, ⟨album, year, t⟩, n)]) ∧
      ∀ x ∈ List.take m ((g.filter (fun p => p.1 ≠ key)) ++ [(key, ⟨album, year, t⟩, n)]),
        ∀ z ∈ List.drop m ((g.filter (fun p => p.1 ≠ key)) ++ [(key, ⟨album, year, t⟩, n)]),
          x.2.2 < z.2.2 := by
  set L : GCache := (g.filter (fun p => p.1 ≠ key)) ++ [(key, ⟨album, year, t⟩, n)] with hL
  obtain ⟨hsl, _⟩ := sorted_append_new g key ⟨album, year, t⟩ n hs hbnd
  rw [← hL] at hsl
  obtain ⟨m, hm⟩ := gevict_eq_drop cap L
  refine ⟨m, hm, ?_⟩
  have hsplit : (gstamps (L.take m ++ L.drop m)).Pairwise (· < ·) := by
    rw [List.take_append_drop]
    exact hsl
  rw [gstamps, List.map_append, List.pairwise_append] at hsplit
  intro x hx z hz
  exact hsplit.2.2 x.2.2 (List.mem_map_of_mem _ hx) z.2.2 (List.mem_map_of_mem _ hz)

lemma gstamps_gload (data : List (String × CacheEntry)) :
    gstamps (gload data) = List.range data.length := by
  rw [gstamps, gload, List.map_map]
  have h : ((fun x : String × CacheEntry × Nat => x.2.2) ∘
      (fun p : Nat × (String × CacheEntry) => (p.2.1, p.2.2, p.1)))
      = Prod.fst := rfl
  rw [h, List.enum_map_fst]

lemma gproj_gload (data : List (String × CacheEntry)) :
    gproj (gload data) = data := by
  rw [gproj, gload, List.map_map]
  have h : ((fun x : String × CacheEntry × Nat => (x.1, x.2.1)) ∘
      (fun p : Nat × (String × CacheEntry) => (p.2.1, p.2.2, p.1)))
      = Prod.snd := rfl
  rw [h, List.enum_map_snd]

lemma cacheFind_append_none (l₁ l₂ : EnrichCache) (k : String)
    (h₁ : cacheFind l₁ k = none) (h₂ : cacheFind l₂ k = none) :
    cacheFind (l₁ ++ l₂) k = none := by
  rw [cacheFind] at h₁ h₂ ⊢
  rw [List.find?_append, Option.map_eq_none'.mp h₁, Option.map_eq_none'.mp h₂]
  rfl

lemma cacheFind_single_none (kv : String × CacheEntry) (k : String) (h : kv.1 ≠ k) :
    cacheFind [kv] k = none := by
  simp [cacheFind, List.find?_cons, h]

lemma foldl_assign_nodup (data : List (String × CacheEntry)) :
    ∀ acc : EnrichCache, (∀ kv ∈ data, cacheFind acc kv.1 = none) →
      (data.map Prod.fst).Nodup →
      data.foldl (fun c kv =>
        if (cacheFind c kv.1).isSome
        then c.map (fun p => if p.1 = kv.1 then (p.1, kv.2) else p)
        else c ++ [kv]) acc = acc ++ data := by
  induction data with
  | nil => intro acc _ _; simp
  | cons kv data ih =>
      intro acc hdisj hnd
      have h1 : cacheFind acc kv.1 = none := hdisj kv (List.mem_cons_self kv data)
      rw [List.map_cons, List.nodup_cons] at hnd
      have hrec := ih (acc ++ [kv]) ?hd hnd.2
      · rw [List.foldl_cons, h1]
        simp only [Option.isSome_none, Bool.false_eq_true, if_false]
        rw [hrec]
        simp
      case hd =>
        intro kv' hkv'
        have hne : kv.1 ≠ kv'.1 := by
          intro he
          exact hnd.1 (he ▸ List.mem_map_of_mem Prod.fst hkv')
        exact cacheFind_append_none acc [kv] kv'.1
          (hdisj kv' (List.mem_cons_of_mem kv hkv'))
          (cacheFind_single_none kv kv'.1 hne)

lemma load_cache_nodup (path : String) (hpath : path ≠ "")
    (data : List (String × CacheEntry)) (hnd : (data.map Prod.fst).Nodup) :
    load_cache_from_disk path data = data := by
  rw [load_cache_from_disk, if_neg hpath]
  have h := foldl_assign_nodup data [] (fun kv _ => rfl) hnd
  rw [h]
  rfl

/-- Claim C5 (amended): after every insertion through `_put_cache` the cache
holds at most the configured capacity of entries, and an insertion evicts
exactly the least-recently-accessed entries: under the recency-stamp
invariant — maintained by every cache operation and established in file order
by the wholesale reload, so that never-touched entries keep earliest
insertion order — every evicted entry carries a strictly smaller access stamp
than every retained one. The wholesale reload itself, however, does not
enforce the capacity bound (see the counterexample), so the bound holds from
the next insertion on, not at every point of the process lifetime. -/
theorem claim_C5_capacity_and_lru (cap : Nat) (ttl : Int) (path : String)
    (fetch : String → String → Option String × Option String) (now t : Int)
    (g : GCache) (title artist key album year : String) (n : Nat)
    (data : List (String × CacheEntry))
    (hs : GSorted g) (hbnd : GBound g n) :
    (∀ (c : EnrichCache) (k a y : String) (u : Int),
      (put_cache cap c k a y u).length ≤ cap) ∧
    gproj (gget cap ttl fetch now g title artist n)
      = (get_cached_or_fetch_album_year cap ttl path fetch now (gproj g) title artist).cache ∧
    GSorted (gget cap ttl fetch now g title artist n) ∧
    GBound (gget cap ttl fetch now g title artist n) (n + 1) ∧
    (∃ m, gput cap g key album year t n
        = List.drop m ((g.filter (fun p => p.1 ≠ key)) ++ [(key, ⟨album, year, t⟩, n)]) ∧
      ∀ x ∈ List.take m ((g.filter (fun p => p.1 ≠ key)) ++ [(key, ⟨album, year, t⟩, n)]),
        ∀ z ∈ List.drop m ((g.filter (fun p => p.1 ≠ key)) ++ [(key, ⟨album, year, t⟩, n)]),
          x.2.2 < z.2.2) ∧
    GSorted (gload data) ∧
    ((data.map Prod.fst).Nodup → path ≠ "" →
      gproj (gload data) = load_cache_from_disk path data) := by
  refine ⟨fun c k a y u => evict_length_le cap _,
    gproj_gget cap ttl path fetch now g title artist n,
    (gget_sorted cap ttl fetch now g title artist n hs hbnd).1,
    (gget_sorted cap ttl fetch now g title artist n hs hbnd).2,
    gput_evicts_lru cap g key album year t n hs hbnd,
    ?_, ?_⟩
  · rw [GSorted, gstamps_gload]
    exact List.pairwise_lt_range data.length
  · intro hnd hpath
    rw [gproj_gload, load_cache_nodup path hpath data hnd]

/-- Witness for the amended claim C5 at a concrete one-entry sorted cache
with capacity 1. -/
theorem claim_C5_witness :
    (put_cache 1 [("a", ⟨"x", "2000", 0⟩)] "b|" "al" "2001" 5).length ≤ 1 ∧
    gproj (gget 1 10 (fun _ _ => (none, none)) 5 [("a", ⟨"x", "2000", 0⟩, 0)] "b" "" 1)
      = (get_cached_or_fetch_album_year 1 10 "p" (fun _ _ => (none, none)) 5
          (gproj [("a", ⟨"x", "2000", 0⟩, 0)]) "b" "").cache := by
  have h := claim_C5_capacity_and_lru 1 10 "p" (fun _ _ => (none, none)) 5 5
    [("a", ⟨"x", "2000", 0⟩, 0)] "b" "" "b|" "al" "2001" 1 [("a", ⟨"x", "2000", 0⟩)]
    (by simp [GSorted, gstamps]) (by simp [GBound, gstamps])
  exact ⟨h.1 [("a", ⟨"x", "2000", 0⟩)] "b|" "al" "2001" 5, h.2.1⟩
